import Mathlib

/-!
# EGMSweb batch fetch orchestrator — shallow embedding

This file embeds the retrieval core of `egms_web.py` (the EGMSweb
Streamlit application) in Lean 4 and proves the specified properties
about it.  The embedding follows the source:

* `fetch_file_data`  — request-identity construction, HTTP fetch,
  status validation and in-memory zip extraction (source lines 59-104);
* `create_batch_zip` — packaging of successful payloads (lines 106-116);
* the grid (L3) batch loop of `main` (lines 343-355) and the orbit (L2)
  batch loop (lines 439-460), including their nested enumeration order;
* the aggregation branches of `main` (lines 265-275, 360-368, 465-473).

Network I/O is modelled by an explicit oracle `Net` mapping a request
URL to an `HttpResult`; Python exceptions raised inside the `try` block
of `fetch_file_data` (transport errors, corrupt zip archives) are
modelled as values of that oracle, so the embedded fetch is a total
function returning a `FetchResult`.  Bytes are lists of byte values;
Python truthiness of `bytes` and `str` is modelled explicitly.
-/

/-- Byte strings (`bytes` in Python) as lists of byte values. -/
abbrev Bytes := List Nat

/-- Python truthiness of a `bytes` value: nonempty. -/
def truthyBytes (b : Bytes) : Bool := !b.isEmpty

/-- Python truthiness of a `str` value: nonempty. -/
def truthyStr (s : String) : Bool := !(s = "")

/-- Python truthiness of an `Optional[str]` value: not `None` and nonempty. -/
def truthyOpt : Option String → Bool
  | none => false
  | some s => truthyStr s

/-- Python `str(x)` applied to an `Optional[str]` (f-string interpolation). -/
def optStr : Option String → String
  | none => "None"
  | some s => s

/-- Python `s.endswith(suf)`. -/
def strEndsWith (s suf : String) : Bool := decide (suf.toList <:+ s.toList)

/-- Python `sub in s` (substring test). -/
def strContains (s sub : String) : Bool := decide (sub.toList <:+: s.toList)

/-- An in-memory zip archive as `zipfile.ZipFile` exposes it to the code:
an ordered name list (`namelist()`) and a read function (`read(name)`). -/
structure ZipArchive where
  names : List String
  read : String → Bytes

/-- The body of an HTTP response, as seen by `zipfile.ZipFile(BytesIO(..))`:
either a well-formed zip archive or bytes that make `ZipFile` raise. -/
inductive ZipContent where
  | corrupt
  | ok (z : ZipArchive)

/-- Result of `curl_requests.get(url)`: either a raised transport-level
exception or a response carrying a status code and a body. -/
inductive HttpResult where
  | transportError (msg : String)
  | response (status : Nat) (content : ZipContent)

/-- The network oracle: what `curl_requests.get` returns for each URL. -/
abbrev Net := String → HttpResult

/-- Outcome of one `fetch_file_data` call.  The Python function returns
`(csv_data, csv_filename)` on success and `(None, None)` otherwise; the
failure constructors record which `st.error` branch was taken. -/
inductive FetchResult where
  | success (data : Bytes) (filename : String)
  | missingParameter
  | statusError (code : Nat)
  | transportError (msg : String)
  | corruptArchive
  | noMatchingPayload
deriving DecidableEq

/-- Python `f"{x:0wd}"` for a natural number: decimal digits left-padded
with zeros to a minimum width `w`. -/
def padNum (w : Nat) (x : Nat) : String :=
  let s := toString x
  String.mk (List.replicate (w - s.length) '0') ++ s

/-- `filename_prefix` of the L3 branch of `fetch_file_data` (line 64):
`f"EGMS_{data_type}_E{e}N{n}_100km_{d}_{year}_1"`. -/
def buildL3Pfx (data_type : String) (e n : Nat) (d year : String) : String :=
  "EGMS_" ++ data_type ++ "_E" ++ toString e ++ "N" ++ toString n ++
    "_100km_" ++ d ++ "_" ++ year ++ "_1"

/-- `url` of the L3 branch (line 65): `BASE_URL_L3` with the grid
coordinates, channel, year range and token substituted. -/
def buildL3Url (data_type : String) (e n : Nat) (d year id : String) : String :=
  "https://egms.land.copernicus.eu/insar-api/archive/download/EGMS_" ++
    data_type ++ "_E" ++ toString e ++ "N" ++ toString n ++ "_100km_" ++
    d ++ "_" ++ year ++ "_1.zip?id=" ++ id

/-- `filename_prefix` of the L2 branch (line 71): built from the raw
`data_type` (`"L2A"`/`"L2B"`), not the remapped value used in the URL. -/
def buildL2Pfx (data_type ro bc sw pol year : String) : String :=
  "EGMS_" ++ data_type ++ "_" ++ ro ++ "_" ++ bc ++ "_" ++ sw ++ "_" ++
    pol ++ "_" ++ year ++ "_1"

/-- The processing sub-level remap of line 73:
`"L2a" if data_type == "L2A" else "L2b"`. -/
def remapSubLevel (data_type : String) : String :=
  if data_type = "L2A" then "L2a" else "L2b"

/-- `url` of the L2 branch (lines 72-80): `BASE_URL_L2` with the remapped
sub-level, orbit, burst cycle, swath, polarization, year and token. -/
def buildL2Url (data_type ro bc sw pol year id : String) : String :=
  "https://egms.land.copernicus.eu/insar-api/archive/download/EGMS_" ++
    remapSubLevel data_type ++ "_" ++ ro ++ "_" ++ bc ++ "_" ++ sw ++
    "_" ++ pol ++ "_" ++ year ++ "_1.zip?id=" ++ id

/-- The extraction loop of lines 92-97: scan `z.namelist()` in stored
order and return `(z.read(name), name)` for the first name that ends in
`".csv"` and contains the expected pattern as a substring. -/
def findCsvAux (read : String → Bytes) (pfx : String) : List String → Option (Bytes × String)
  | [] => none
  | nm :: rest =>
      if strEndsWith nm ".csv" && strContains nm pfx then some (read nm, nm)
      else findCsvAux read pfx rest

/-- Extraction over a whole archive (lines 91-100). -/
def findCsv (z : ZipArchive) (pfx : String) : Option (Bytes × String) :=
  findCsvAux z.read pfx z.names

/-- The `try` block of `fetch_file_data` (lines 82-104): issue the GET,
validate the status (`!= 200` is a failure), open the body as a zip and
extract the matching CSV.  Exceptions (transport errors, corrupt
archives) are caught by the `except` clause and become failures. -/
def fetchAndExtract (url pfx : String) (net : Net) : FetchResult :=
  match net url with
  | .transportError m => .transportError m
  | .response st content =>
      if st ≠ 200 then .statusError st
      else
        match content with
        | .corrupt => .corruptArchive
        | .ok z =>
            match findCsv z pfx with
            | some (data, nm) => .success data nm
            | none => .noMatchingPayload

/-- `fetch_file_data` (lines 59-104).  Returns the outcome together with
the list of URLs actually requested from the network (empty when the
missing-parameter guard of lines 67-69 fires before any request). -/
def fetch_file_data (e n : Nat) (d data_type year id : String)
    (relative_orbit burst_cycle swath polarization : Option String)
    (net : Net) : FetchResult × List String :=
  if data_type = "L3" then
    let pfx := buildL3Pfx data_type e n d year
    let url := buildL3Url data_type e n d year id
    (fetchAndExtract url pfx net, [url])
  else
    if !(truthyOpt relative_orbit && truthyOpt burst_cycle &&
         truthyOpt swath && truthyOpt polarization) then
      (.missingParameter, [])
    else
      let pfx := buildL2Pfx data_type (optStr relative_orbit)
        (optStr burst_cycle) (optStr swath) (optStr polarization) year
      let url := buildL2Url data_type (optStr relative_orbit)
        (optStr burst_cycle) (optStr swath) (optStr polarization) year id
      (fetchAndExtract url pfx net, [url])

/-- `create_batch_zip` (lines 106-116): write each `(filename, data)`
pair whose data is not `None` into the output container, in order.  The
container is modelled by its ordered entry list. -/
def create_batch_zip (files_data : List (String × Option Bytes)) : List (String × Bytes) :=
  files_data.filterMap fun p =>
    match p.2 with
    | some d => some (p.1, d)
    | none => none

/-- One task of the L3 (grid) batch loop: an east coordinate, a north
coordinate and a displacement channel. -/
structure GridTask where
  e : Nat
  n : Nat
  d : String
deriving DecidableEq, Repr

/-- The task enumeration of the L3 batch loop (lines 343-345):
`for e in range(min_e, max_e + 1): for n in range(min_n, max_n + 1):
for d in displacements:` in exactly that nesting. -/
def enumGridTasks (min_e max_e min_n max_n : Nat) (displacements : List String) :
    List GridTask :=
  (List.range' min_e (max_e + 1 - min_e)).flatMap fun e =>
    (List.range' min_n (max_n + 1 - min_n)).flatMap fun n =>
      displacements.map fun d => ⟨e, n, d⟩

/-- The shared shape of both batch loops (lines 346-355 and 443-460):
each task increments `task_count`, runs its fetch step, and appends
`(csv_filename, csv_data)` to `files_data` exactly when both returned
values are truthy (`if csv_data and csv_filename:`).  Returns
`(task_count, files_data)`. -/
def runLoop (step : τ → FetchResult) : List τ → Nat × List (String × Bytes)
  | [] => (0, [])
  | t :: rest =>
      let r := step t
      let rec_r := runLoop step rest
      match r with
      | .success data nm =>
          if truthyBytes data && truthyStr nm then
            (rec_r.1 + 1, (nm, data) :: rec_r.2)
          else (rec_r.1 + 1, rec_r.2)
      | _ => (rec_r.1 + 1, rec_r.2)

/-- The fetch step of the L3 batch loop (line 351):
`fetch_file_data(e, n, d, "L3", year, id_value)`. -/
def gridStep (year id : String) (net : Net) (t : GridTask) : FetchResult :=
  (fetch_file_data t.e t.n t.d "L3" year id none none none none net).1

/-- The L3 batch loop of lines 346-355 over a task list. -/
def runGridBatch (year id : String) (net : Net) (tasks : List GridTask) :
    Nat × List (String × Bytes) :=
  runLoop (gridStep year id net) tasks

/-- One task of the L2 batch loop: a relative orbit number, a burst
cycle number, a swath and a polarization. -/
structure L2Task where
  ro : Nat
  bc : Nat
  sw : String
  pol : String
deriving DecidableEq, Repr

/-- The task enumeration of the L2 batch loop (lines 439-442):
`for rel_orbit in range(..): for burst_cycle in range(..):
for swath in selected_swaths: for polarization in selected_polarizations:`
in exactly that nesting. -/
def enumL2Tasks (minRo maxRo minBc maxBc : Nat) (swaths pols : List String) :
    List L2Task :=
  (List.range' minRo (maxRo + 1 - minRo)).flatMap fun ro =>
    (List.range' minBc (maxBc + 1 - minBc)).flatMap fun bc =>
      swaths.flatMap fun sw =>
        pols.map fun pol => ⟨ro, bc, sw, pol⟩

/-- The fetch step of the L2 batch loop (lines 446-456): format the
orbit and burst-cycle numbers with zero padding (`f"{rel_orbit:03d}"`,
`f"{burst_cycle:04d}"`) and call `fetch_file_data` with them. -/
def l2Step (data_type year id : String) (net : Net) (t : L2Task) : FetchResult :=
  (fetch_file_data 0 0 "" data_type year id
    (some (padNum 3 t.ro)) (some (padNum 4 t.bc))
    (some t.sw) (some t.pol) net).1

/-- The L2 batch loop of lines 443-460 over a task list. -/
def runL2Batch (data_type year id : String) (net : Net) (tasks : List L2Task) :
    Nat × List (String × Bytes) :=
  runLoop (l2Step data_type year id net) tasks

/-- Whether a `fetch_file_data` outcome is one of the failure branches
(the Python function returned `(None, None)`). -/
def isFailureOutcome : FetchResult → Bool
  | .success _ _ => false
  | _ => true

/-- What a loop iteration contributes to `files_data`: the
`(csv_filename, csv_data)` pair when the step succeeded with truthy
data and filename, nothing otherwise. -/
def collectOutcome : FetchResult → Option (String × Bytes)
  | .success data nm =>
      if truthyBytes data && truthyStr nm then some (nm, data) else none
  | _ => none

/-- `a` occurs at a strictly earlier position than `b` in `l`. -/
def posBefore (l : List α) (a b : α) : Prop :=
  ∃ i j, ∃ (hi : i < l.length) (hj : j < l.length),
    i < j ∧ l.get ⟨i, hi⟩ = a ∧ l.get ⟨j, hj⟩ = b

/-- Strict lexicographic order of grid tasks: east coordinate first,
then north coordinate, then position of the channel in the
displacement list. -/
def gridLexLT (disps : List String) (t₁ t₂ : GridTask) : Prop :=
  t₁.e < t₂.e ∨ (t₁.e = t₂.e ∧ (t₁.n < t₂.n ∨
    (t₁.n = t₂.n ∧ posBefore disps t₁.d t₂.d)))

/-- Strict lexicographic order of orbit tasks: orbit number first, then
burst cycle, then position of the swath in the selected swath list,
then position of the polarization in the selected polarization list. -/
def l2LexLT (swaths pols : List String) (t₁ t₂ : L2Task) : Prop :=
  t₁.ro < t₂.ro ∨ (t₁.ro = t₂.ro ∧ (t₁.bc < t₂.bc ∨
    (t₁.bc = t₂.bc ∧ (posBefore swaths t₁.sw t₂.sw ∨
      (t₁.sw = t₂.sw ∧ posBefore pols t₁.pol t₂.pol)))))

/-- The delivered output: either a bare payload under its own filename,
or a zip container holding the collected payloads. -/
inductive OutputArchive where
  | bare (filename : String) (data : Bytes)
  | container (name : String) (entries : List (String × Bytes))
deriving DecidableEq

/-- The aggregation step of `main`, merging its branches over the
collected `files_data`.  In single-file mode (lines 265-275) a single
collected file is delivered bare and several are zipped; in batch mode
(lines 360-368 and 465-473) any nonempty `files_data` is zipped.  An
empty `files_data` yields no delivery (batch mode surfaces
`"No files could be downloaded"`). -/
def aggregate (files_data : List (String × Bytes)) (singleFileMode : Bool)
    (zipName : String) : Option OutputArchive :=
  match files_data with
  | [] => none
  | f :: rest =>
      if singleFileMode && rest.isEmpty then some (.bare f.1 f.2)
      else some (.container zipName
        (create_batch_zip (files_data.map fun p => (p.1, some p.2))))

/-! ## Helper lemmas -/

theorem findCsvAux_eq_find? (read : String → Bytes) (pfx : String) (names : List String) :
    findCsvAux read pfx names =
      (names.find? fun nm => strEndsWith nm ".csv" && strContains nm pfx).map
        fun nm => (read nm, nm) := by
  induction names with
  | nil => rfl
  | cons nm rest ih =>
      rw [findCsvAux]
      by_cases h : (strEndsWith nm ".csv" && strContains nm pfx) = true
      · rw [if_pos h]
        simp [List.find?_cons_of_pos, h]
      · rw [if_neg h, ih]
        simp [List.find?_cons_of_neg, h]

theorem runLoop_count (step : τ → FetchResult) (tasks : List τ) :
    (runLoop step tasks).1 = tasks.length := by
  induction tasks with
  | nil => rfl
  | cons t rest ih =>
      cases h : step t <;> simp [runLoop, h, ih]
      split <;> simp [ih]

theorem runLoop_files (step : τ → FetchResult) (tasks : List τ) :
    (runLoop step tasks).2 = tasks.filterMap fun t => collectOutcome (step t) := by
  induction tasks with
  | nil => rfl
  | cons t rest ih =>
      rw [List.filterMap_cons]
      cases h : step t with
      | success data nm =>
          by_cases hb : (truthyBytes data && truthyStr nm) = true
          · simp only [runLoop, h, collectOutcome, hb, if_pos, ih]
          · simp only [runLoop, h, collectOutcome, hb, if_neg, ih, Bool.not_eq_true]
      | missingParameter => simp only [runLoop, h, collectOutcome, ih]
      | statusError code => simp only [runLoop, h, collectOutcome, ih]
      | transportError m => simp only [runLoop, h, collectOutcome, ih]
      | corruptArchive => simp only [runLoop, h, collectOutcome, ih]
      | noMatchingPayload => simp only [runLoop, h, collectOutcome, ih]

theorem runLoop_files_append (step : τ → FetchResult) (xs ys : List τ) :
    (runLoop step (xs ++ ys)).2 = (runLoop step xs).2 ++ (runLoop step ys).2 := by
  simp [runLoop_files, List.filterMap_append]

theorem create_batch_zip_map_some (l : List (String × Bytes)) :
    create_batch_zip (l.map fun p => (p.1, some p.2)) = l := by
  induction l with
  | nil => rfl
  | cons p rest ih => simp [create_batch_zip] at ih ⊢; exact ih

theorem pairwise_posBefore (l : List α) : l.Pairwise (posBefore l) := by
  rw [List.pairwise_iff_getElem]
  intro i j hi hj hij
  exact ⟨i, j, hi, hj, hij, rfl, rfl⟩

theorem pairwise_flatMap_of {R : β → β → Prop} {S : α → α → Prop} {l : List α}
    {f : α → List β} (hl : l.Pairwise S)
    (hcross : ∀ a b, S a b → ∀ x ∈ f a, ∀ y ∈ f b, R x y)
    (hin : ∀ a ∈ l, (f a).Pairwise R) :
    (l.flatMap f).Pairwise R := by
  induction l with
  | nil => simp
  | cons a l ih =>
      rcases List.pairwise_cons.mp hl with ⟨ha, hl'⟩
      rw [List.flatMap_cons, List.pairwise_append]
      refine ⟨hin a (by simp), ih hl' (fun b hb => hin b (by simp [hb])), ?_⟩
      intro x hx y hy
      rcases List.mem_flatMap.mp hy with ⟨b, hb, hyb⟩
      exact hcross a b (ha b hb) x hx y hyb

theorem padNum_length (w x : Nat) :
    (padNum w x).length = max w (toString x).length := by
  have h1 : ∀ l : List Char, (String.mk l).length = l.length := fun _ => rfl
  show (String.mk (List.replicate (w - (toString x).length) '0') ++ toString x).length = _
  rw [String.length_append, h1, List.length_replicate, Nat.max_def]
  split <;> omega

theorem truthyStr_eq_true (s : String) (h : s ≠ "") : truthyStr s = true := by
  simp [truthyStr, h]

theorem padNum_ne_empty (w x : Nat) (hw : 0 < w) : padNum w x ≠ "" := by
  intro hs
  have h := padNum_length w x
  rw [hs] at h
  have h2 : w ≤ max w (toString x).length := Nat.le_max_left _ _
  rw [← h] at h2
  exact absurd (Nat.le_zero.mp h2) (Nat.pos_iff_ne_zero.mp hw)

theorem padNum_length_eq (w x : Nat) (h : (toString x).length ≤ w) :
    (padNum w x).length = w := by
  rw [padNum_length]
  exact Nat.max_eq_left h

theorem toString_nat_length_le (x e : Nat) (he : 0 < e) (h : x < 10 ^ e) :
    (toString x).length ≤ e :=
  Nat.repr_length x e he h

theorem pairwise_enumGridTasks (minE maxE minN maxN : Nat) (disps : List String) :
    (enumGridTasks minE maxE minN maxN disps).Pairwise (gridLexLT disps) := by
  apply pairwise_flatMap_of (S := fun a b => a < b)
  · exact List.pairwise_lt_range' _ _
  · intro a b hab x hx y hy
    have hx' : x.e = a := by
      rcases List.mem_flatMap.mp hx with ⟨n, _, hx2⟩
      rcases List.mem_map.mp hx2 with ⟨d, _, rfl⟩
      rfl
    have hy' : y.e = b := by
      rcases List.mem_flatMap.mp hy with ⟨n, _, hy2⟩
      rcases List.mem_map.mp hy2 with ⟨d, _, rfl⟩
      rfl
    exact Or.inl (by rw [hx', hy']; exact hab)
  · intro a _
    apply pairwise_flatMap_of (S := fun n₁ n₂ => n₁ < n₂)
    · exact List.pairwise_lt_range' _ _
    · intro n₁ n₂ hn x hx y hy
      rcases List.mem_map.mp hx with ⟨d₁, _, rfl⟩
      rcases List.mem_map.mp hy with ⟨d₂, _, rfl⟩
      exact Or.inr ⟨rfl, Or.inl hn⟩
    · intro n _
      exact List.pairwise_map.mpr ((pairwise_posBefore disps).imp
        fun h => Or.inr ⟨rfl, Or.inr ⟨rfl, h⟩⟩)

theorem pairwise_enumL2Tasks (minRo maxRo minBc maxBc : Nat) (swaths pols : List String) :
    (enumL2Tasks minRo maxRo minBc maxBc swaths pols).Pairwise (l2LexLT swaths pols) := by
  apply pairwise_flatMap_of (S := fun a b => a < b)
  · exact List.pairwise_lt_range' _ _
  · intro a b hab x hx y hy
    have hx' : x.ro = a := by
      rcases List.mem_flatMap.mp hx with ⟨bc, _, hx2⟩
      rcases List.mem_flatMap.mp hx2 with ⟨sw, _, hx3⟩
      rcases List.mem_map.mp hx3 with ⟨pol, _, rfl⟩
      rfl
    have hy' : y.ro = b := by
      rcases List.mem_flatMap.mp hy with ⟨bc, _, hy2⟩
      rcases List.mem_flatMap.mp hy2 with ⟨sw, _, hy3⟩
      rcases List.mem_map.mp hy3 with ⟨pol, _, rfl⟩
      rfl
    exact Or.inl (by rw [hx', hy']; exact hab)
  · intro a _
    apply pairwise_flatMap_of (S := fun b₁ b₂ => b₁ < b₂)
    · exact List.pairwise_lt_range' _ _
    · intro b₁ b₂ hb x hx y hy
      rcases List.mem_flatMap.mp hx with ⟨sw₁, _, hx2⟩
      rcases List.mem_map.mp hx2 with ⟨pol₁, _, rfl⟩
      rcases List.mem_flatMap.mp hy with ⟨sw₂, _, hy2⟩
      rcases List.mem_map.mp hy2 with ⟨pol₂, _, rfl⟩
      exact Or.inr ⟨rfl, Or.inl hb⟩
    · intro bc _
      apply pairwise_flatMap_of (S := posBefore swaths)
      · exact pairwise_posBefore swaths
      · intro sw₁ sw₂ hsw x hx y hy
        rcases List.mem_map.mp hx with ⟨pol₁, _, rfl⟩
        rcases List.mem_map.mp hy with ⟨pol₂, _, rfl⟩
        exact Or.inr ⟨rfl, Or.inr ⟨rfl, Or.inl hsw⟩⟩
      · intro sw _
        exact List.pairwise_map.mpr ((pairwise_posBefore pols).imp
          fun h => Or.inr ⟨rfl, Or.inr ⟨rfl, Or.inr ⟨rfl, h⟩⟩⟩)

theorem mem_enumL2Tasks {minRo maxRo minBc maxBc : Nat} {swaths pols : List String}
    {t : L2Task} (h : t ∈ enumL2Tasks minRo maxRo minBc maxBc swaths pols) :
    minRo ≤ t.ro ∧ t.ro ≤ maxRo ∧ minBc ≤ t.bc ∧ t.bc ≤ maxBc ∧
      t.sw ∈ swaths ∧ t.pol ∈ pols := by
  rcases List.mem_flatMap.mp h with ⟨ro, hro, h2⟩
  rcases List.mem_flatMap.mp h2 with ⟨bc, hbc, h3⟩
  rcases List.mem_flatMap.mp h3 with ⟨sw, hsw, h4⟩
  rcases List.mem_map.mp h4 with ⟨pol, hpol, rfl⟩
  rcases List.mem_range'_1.mp hro with ⟨hro1, hro2⟩
  rcases List.mem_range'_1.mp hbc with ⟨hbc1, hbc2⟩
  exact ⟨hro1, show ro ≤ maxRo by omega, hbc1, show bc ≤ maxBc by omega, hsw, hpol⟩

theorem l2Step_eq (dt year id : String) (net : Net) (t : L2Task)
    (hdt : dt ≠ "L3") (hsw : t.sw ≠ "") (hpol : t.pol ≠ "") :
    l2Step dt year id net t =
      fetchAndExtract
        (buildL2Url dt (padNum 3 t.ro) (padNum 4 t.bc) t.sw t.pol year id)
        (buildL2Pfx dt (padNum 3 t.ro) (padNum 4 t.bc) t.sw t.pol year) net := by
  unfold l2Step fetch_file_data
  rw [if_neg hdt]
  have h1 : truthyOpt (some (padNum 3 t.ro)) = true :=
    truthyStr_eq_true _ (padNum_ne_empty 3 t.ro (by omega))
  have h2 : truthyOpt (some (padNum 4 t.bc)) = true :=
    truthyStr_eq_true _ (padNum_ne_empty 4 t.bc (by omega))
  have h3 : truthyOpt (some t.sw) = true := truthyStr_eq_true _ hsw
  have h4 : truthyOpt (some t.pol) = true := truthyStr_eq_true _ hpol
  rw [h1, h2, h3, h4]
  rfl

/-! ## Claim theorems -/

/-- C2: for every archive and expected pattern, extraction scans the
entries in stored order and returns the bytes and name of the first
entry whose name ends in `".csv"` and contains the expected pattern as
a substring; in particular, for an archive with entries
`["readme.txt", "EGMS_L3_E32N31_100km_E_2019_2023_1.csv"]` and pattern
`"EGMS_L3_E32N31_100km_E_2019_2023_1"`, it returns the second entry's
bytes under its name. -/
theorem extract_returns_first_matching_entry :
    (∀ (z : ZipArchive) (pfx : String),
      findCsv z pfx =
        (z.names.find? fun nm => strEndsWith nm ".csv" && strContains nm pfx).map
          fun nm => (z.read nm, nm)) ∧
    (∀ read : String → Bytes,
      findCsv ⟨["readme.txt", "EGMS_L3_E32N31_100km_E_2019_2023_1.csv"], read⟩
          "EGMS_L3_E32N31_100km_E_2019_2023_1" =
        some (read "EGMS_L3_E32N31_100km_E_2019_2023_1.csv",
          "EGMS_L3_E32N31_100km_E_2019_2023_1.csv")) := by
  constructor
  · intro z pfx
    exact findCsvAux_eq_find? z.read pfx z.names
  · intro read
    rfl

/-- C5 (amended): a response whose status code is anything other than
200 yields a status-error failure recording that code — including 2xx
codes other than 200 — and a 200 response with an archive body proceeds
to extraction. -/
theorem status_not_200_rejected (net : Net) (url pfx : String) (st : Nat)
    (content : ZipContent) (h : net url = .response st content) :
    (st ≠ 200 → fetchAndExtract url pfx net = .statusError st) ∧
    (st = 200 → ∀ z : ZipArchive, content = .ok z →
      fetchAndExtract url pfx net =
        (match findCsv z pfx with
         | some (data, nm) => .success data nm
         | none => .noMatchingPayload)) := by
  constructor
  · intro hst
    simp [fetchAndExtract, h, hst]
  · intro hst z hz
    subst hst
    subst hz
    simp [fetchAndExtract, h]

/-- C5 witness: a 404 response is a status error recording 404; a 200
response with an archive body reaches extraction. -/
theorem status_not_200_rejected_witness :
    fetchAndExtract "u" "p" (fun _ => .response 404 .corrupt) = .statusError 404 ∧
    fetchAndExtract "u" "p" (fun _ => .response 200 (.ok ⟨[], fun _ => []⟩)) =
      .noMatchingPayload := by
  constructor
  · exact (status_not_200_rejected (fun _ => .response 404 .corrupt) "u" "p" 404
      .corrupt rfl).1 (by omega)
  · have h := (status_not_200_rejected (fun _ => .response 200 (.ok ⟨[], fun _ => []⟩))
      "u" "p" 200 (.ok ⟨[], fun _ => []⟩) rfl).2 rfl ⟨[], fun _ => []⟩ rfl
    rw [h]
    rfl

/-- C5 counterexample to the claim as stated: a 201 response — a 2xx
status — carrying an archive body with a matching CSV entry is not
accepted as success for extraction; the code's `!= 200` check turns it
into a status-error failure. -/
theorem status_2xx_rejected_counterexample :
    (fetch_file_data 32 31 "E" "L3" "2019_2023" "tok" none none none none
        (fun _ => .response 201
          (.ok ⟨["EGMS_L3_E32N31_100km_E_2019_2023_1.csv"], fun _ => [49]⟩))).1
      = .statusError 201 ∧ (200 ≤ 201 ∧ 201 < 300) := by
  exact ⟨rfl, by omega⟩

/-- C6: an OrbitMode request (any non-L3 data type) with any of the
four fields orbit / burst cycle / swath / polarization unpopulated
yields the missing-parameter failure, and the list of URLs requested
from the network is empty — no network action is performed. -/
theorem missing_l2_params_no_request (dt : String) (hdt : dt ≠ "L3")
    (ro bc sw pol : Option String)
    (h : (truthyOpt ro && truthyOpt bc && truthyOpt sw && truthyOpt pol) = false) :
    ∀ (e n : Nat) (d year id : String) (net : Net),
      fetch_file_data e n d dt year id ro bc sw pol net =
        (.missingParameter, []) := by
  intro e n d year id net
  unfold fetch_file_data
  rw [if_neg hdt, if_pos]
  simp [h]

/-- C6 witness: an L2A request with no orbit populated returns the
missing-parameter failure without touching the network. -/
theorem missing_l2_params_no_request_witness :
    fetch_file_data 0 0 "" "L2A" "2019_2023" "tok" none (some "0716")
        (some "IW2") (some "VV") (fun _ => .transportError "x") =
      (.missingParameter, []) :=
  missing_l2_params_no_request "L2A" (by decide) none (some "0716") (some "IW2")
    (some "VV") rfl 0 0 "" "2019_2023" "tok" (fun _ => .transportError "x")

theorem collectOutcome_eq_none (r : FetchResult) (h : isFailureOutcome r = true) :
    collectOutcome r = none := by
  cases r with
  | success data nm => simp [isFailureOutcome] at h
  | missingParameter => rfl
  | statusError code => rfl
  | transportError m => rfl
  | corruptArchive => rfl
  | noMatchingPayload => rfl

/-- C1: both batch loops visit every enumerated address exactly once
and always run to completion: the visited count equals the number of
addresses whatever the outcomes; the collected results of a batch are
the concatenation of the collected results of its parts, so no failure
aborts or skips later tasks; and a task whose fetch ends in any failure
outcome contributes to the visited count but adds nothing to
`files_data`, after which the rest of the batch proceeds unchanged. -/
theorem batch_run_total_and_isolated (year id dt : String) (net : Net) :
    (∀ tasks : List GridTask, (runGridBatch year id net tasks).1 = tasks.length) ∧
    (∀ tasks : List L2Task, (runL2Batch dt year id net tasks).1 = tasks.length) ∧
    (∀ xs ys : List GridTask,
      (runGridBatch year id net (xs ++ ys)).2 =
        (runGridBatch year id net xs).2 ++ (runGridBatch year id net ys).2) ∧
    (∀ xs ys : List L2Task,
      (runL2Batch dt year id net (xs ++ ys)).2 =
        (runL2Batch dt year id net xs).2 ++ (runL2Batch dt year id net ys).2) ∧
    (∀ (t : GridTask) (rest : List GridTask),
      isFailureOutcome (gridStep year id net t) = true →
        runGridBatch year id net (t :: rest) =
          ((runGridBatch year id net rest).1 + 1,
            (runGridBatch year id net rest).2)) ∧
    (∀ (t : L2Task) (rest : List L2Task),
      isFailureOutcome (l2Step dt year id net t) = true →
        runL2Batch dt year id net (t :: rest) =
          ((runL2Batch dt year id net rest).1 + 1,
            (runL2Batch dt year id net rest).2)) := by
  refine ⟨fun tasks => runLoop_count _ tasks, fun tasks => runLoop_count _ tasks,
    fun xs ys => runLoop_files_append _ xs ys,
    fun xs ys => runLoop_files_append _ xs ys, ?_, ?_⟩
  · intro t rest h
    cases hs : gridStep year id net t with
    | success data nm => rw [hs] at h; simp [isFailureOutcome] at h
    | missingParameter => simp [runGridBatch, runLoop, hs]
    | statusError code => simp [runGridBatch, runLoop, hs]
    | transportError m => simp [runGridBatch, runLoop, hs]
    | corruptArchive => simp [runGridBatch, runLoop, hs]
    | noMatchingPayload => simp [runGridBatch, runLoop, hs]
  · intro t rest h
    cases hs : l2Step dt year id net t with
    | success data nm => rw [hs] at h; simp [isFailureOutcome] at h
    | missingParameter => simp [runL2Batch, runLoop, hs]
    | statusError code => simp [runL2Batch, runLoop, hs]
    | transportError m => simp [runL2Batch, runLoop, hs]
    | corruptArchive => simp [runL2Batch, runLoop, hs]
    | noMatchingPayload => simp [runL2Batch, runLoop, hs]

/-- C1 witness: on a network that refuses every connection, a two-task
grid batch still visits both tasks (count 2) and collects nothing, and
the failing first task leaves the processing of the rest unchanged. -/
theorem batch_run_total_and_isolated_witness :
    isFailureOutcome (gridStep "2019_2023" "tok"
        (fun _ => HttpResult.transportError "connection refused") ⟨10, 25, "E"⟩) = true ∧
    runGridBatch "2019_2023" "tok"
        (fun _ => HttpResult.transportError "connection refused")
        [⟨10, 25, "E"⟩, ⟨10, 25, "U"⟩] = (2, []) := by
  constructor
  · rfl
  · have h := (batch_run_total_and_isolated "2019_2023" "tok" "L2A"
      (fun _ => HttpResult.transportError "connection refused")).2.2.2.2.1
      ⟨10, 25, "E"⟩ [⟨10, 25, "U"⟩] rfl
    rw [h]
    rfl

/-- C3: the aggregation step delivers the bare `(filename, bytes)` pair
under its own filename exactly when the collected result has exactly
one success and the caller is in single-file mode; in every other case
with at least one success it delivers a zip container holding every
collected success under its original filename (failed tasks never
entered `files_data`, so they are omitted). -/
theorem aggregate_bare_iff_single_success (files : List (String × Bytes))
    (m : Bool) (zipName : String) :
    ((∃ f d, aggregate files m zipName = some (.bare f d)) ↔
      (m = true ∧ files.length = 1)) ∧
    (∀ p : String × Bytes, files = [p] → m = true →
      aggregate files m zipName = some (.bare p.1 p.2)) ∧
    (files ≠ [] → (m = false ∨ files.length ≠ 1) →
      aggregate files m zipName = some (.container zipName files)) := by
  refine ⟨?_, ?_, ?_⟩
  · cases files with
    | nil => simp [aggregate]
    | cons f rest =>
        by_cases hm : (m && rest.isEmpty) = true
        · rcases (by simpa using hm : m = true ∧ rest.isEmpty = true) with ⟨hm1, hr⟩
          rw [List.isEmpty_iff] at hr
          subst hr
          subst hm1
          simp [aggregate]
        · constructor
          · rintro ⟨f', d', hf⟩
            rw [aggregate, if_neg hm] at hf
            simp at hf
          · rintro ⟨hm1, hlen⟩
            subst hm1
            have hr : rest = [] := by
              simp only [List.length_cons] at hlen
              exact List.length_eq_zero.mp (by omega)
            subst hr
            simp at hm
  · intro p hp hm1
    subst hp
    subst hm1
    simp [aggregate]
  · intro hne hcase
    cases files with
    | nil => exact absurd rfl hne
    | cons f rest =>
        have hm : (m && rest.isEmpty) = false := by
          rcases hcase with hc | hc
          · simp [hc]
          · cases rest with
            | nil => exact absurd rfl hc
            | cons g gs => simp
        rw [aggregate, if_neg (by simp [hm]), create_batch_zip_map_some]

/-- C3 witness: one collected success in single-file mode is delivered
bare; two collected successes in single-file mode, or one in batch
mode, are delivered as a container holding every success. -/
theorem aggregate_bare_iff_single_success_witness :
    aggregate [("a.csv", [49])] true "z.zip" =
      some (.bare "a.csv" [49]) ∧
    aggregate [("a.csv", [49]), ("b.csv", [50])] true "z.zip" =
      some (.container "z.zip" [("a.csv", [49]), ("b.csv", [50])]) ∧
    aggregate [("a.csv", [49])] false "z.zip" =
      some (.container "z.zip" [("a.csv", [49])]) := by
  refine ⟨?_, ?_, ?_⟩
  · exact (aggregate_bare_iff_single_success [("a.csv", [49])] true "z.zip").2.1
      ("a.csv", [49]) rfl rfl
  · exact (aggregate_bare_iff_single_success [("a.csv", [49]), ("b.csv", [50])]
      true "z.zip").2.2 (by simp) (Or.inr (by simp))
  · exact (aggregate_bare_iff_single_success [("a.csv", [49])]
      false "z.zip").2.2 (by simp) (Or.inl rfl)

/-- C4: a batch in which every task's fetch ends in a failure outcome
still visits all N tasks, collects zero successes, and its aggregation
yields no output archive (the batch paths then surface
`"No files could be downloaded"`).  Stated for both the grid and the
orbit batch loops. -/
theorem all_failed_batch_delivers_nothing (year id dt zipName : String) (net : Net) :
    (∀ tasks : List GridTask,
      (∀ t ∈ tasks, isFailureOutcome (gridStep year id net t) = true) →
        (runGridBatch year id net tasks).1 = tasks.length ∧
        (runGridBatch year id net tasks).2 = [] ∧
        aggregate (runGridBatch year id net tasks).2 false zipName = none) ∧
    (∀ tasks : List L2Task,
      (∀ t ∈ tasks, isFailureOutcome (l2Step dt year id net t) = true) →
        (runL2Batch dt year id net tasks).1 = tasks.length ∧
        (runL2Batch dt year id net tasks).2 = [] ∧
        aggregate (runL2Batch dt year id net tasks).2 false zipName = none) := by
  constructor
  · intro tasks h
    have hfiles : (runGridBatch year id net tasks).2 = [] := by
      rw [runGridBatch, runLoop_files]
      exact List.filterMap_eq_nil_iff.mpr fun t ht =>
        collectOutcome_eq_none _ (h t ht)
    exact ⟨runLoop_count _ tasks, hfiles, by rw [hfiles]; rfl⟩
  · intro tasks h
    have hfiles : (runL2Batch dt year id net tasks).2 = [] := by
      rw [runL2Batch, runLoop_files]
      exact List.filterMap_eq_nil_iff.mpr fun t ht =>
        collectOutcome_eq_none _ (h t ht)
    exact ⟨runLoop_count _ tasks, hfiles, by rw [hfiles]; rfl⟩

/-- C4 witness: a two-task grid batch against a server that always
answers 404 visits both tasks, collects nothing, and aggregation
yields no output. -/
theorem all_failed_batch_delivers_nothing_witness :
    (runGridBatch "2019_2023" "tok" (fun _ => HttpResult.response 404 .corrupt)
        [⟨10, 25, "E"⟩, ⟨11, 25, "E"⟩]).1 = 2 ∧
    (runGridBatch "2019_2023" "tok" (fun _ => HttpResult.response 404 .corrupt)
        [⟨10, 25, "E"⟩, ⟨11, 25, "E"⟩]).2 = [] ∧
    aggregate (runGridBatch "2019_2023" "tok"
        (fun _ => HttpResult.response 404 .corrupt)
        [⟨10, 25, "E"⟩, ⟨11, 25, "E"⟩]).2 false "batch.zip" = none := by
  have h := (all_failed_batch_delivers_nothing "2019_2023" "tok" "L2A" "batch.zip"
    (fun _ => HttpResult.response 404 .corrupt)).1
    [⟨10, 25, "E"⟩, ⟨11, 25, "E"⟩]
    (by intro t ht; fin_cases ht <;> rfl)
  exact ⟨h.1, h.2.1, h.2.2⟩

/-- C7: both multi-dimensional batch enumerations are nested — grid
batches iterate the east coordinate outermost, then the north
coordinate, then the channel innermost; orbit batches iterate orbit
number, then burst cycle, then swath, then polarization — so the task
list is strictly lexicographically ordered; and the collected
successes of a run are an order-preserving projection (`filterMap`) of
that enumeration, hence appear in the batch result in exactly the
enumeration order. -/
theorem enumeration_nested_order_preserved
    (minE maxE minN maxN minRo maxRo minBc maxBc : Nat)
    (disps swaths pols : List String) (year id dt : String) (net : Net) :
    (enumGridTasks minE maxE minN maxN disps).Pairwise (gridLexLT disps) ∧
    (enumL2Tasks minRo maxRo minBc maxBc swaths pols).Pairwise
      (l2LexLT swaths pols) ∧
    (runGridBatch year id net (enumGridTasks minE maxE minN maxN disps)).2 =
      (enumGridTasks minE maxE minN maxN disps).filterMap
        (fun t => collectOutcome (gridStep year id net t)) ∧
    (runL2Batch dt year id net (enumL2Tasks minRo maxRo minBc maxBc swaths pols)).2 =
      (enumL2Tasks minRo maxRo minBc maxBc swaths pols).filterMap
        (fun t => collectOutcome (l2Step dt year id net t)) :=
  ⟨pairwise_enumGridTasks minE maxE minN maxN disps,
   pairwise_enumL2Tasks minRo maxRo minBc maxBc swaths pols,
   runLoop_files _ _, runLoop_files _ _⟩

/-- C9: every task of the L2 batch enumeration is fetched with the
orbit number zero-padded to width 3 and the burst-cycle number
zero-padded to width 4, and those padded strings are the ones
substituted into both the URL and the expected filename pattern; for
inputs within the UI bounds (orbit ≤ 999, burst cycle ≤ 9999) the
padded widths are exactly 3 and 4. -/
theorem l2_batch_zero_padding
    (minRo maxRo minBc maxBc : Nat) (swaths pols : List String)
    (dt year id : String) (net : Net) (t : L2Task)
    (hmem : t ∈ enumL2Tasks minRo maxRo minBc maxBc swaths pols)
    (hdt : dt ≠ "L3") (hsw : t.sw ≠ "") (hpol : t.pol ≠ "")
    (hro : maxRo < 1000) (hbc : maxBc < 10000) :
    l2Step dt year id net t =
      fetchAndExtract
        (buildL2Url dt (padNum 3 t.ro) (padNum 4 t.bc) t.sw t.pol year id)
        (buildL2Pfx dt (padNum 3 t.ro) (padNum 4 t.bc) t.sw t.pol year) net ∧
    (padNum 3 t.ro).length = 3 ∧ (padNum 4 t.bc).length = 4 := by
  obtain ⟨h1, h2, h3, h4, h5, h6⟩ := mem_enumL2Tasks hmem
  refine ⟨l2Step_eq dt year id net t hdt hsw hpol, ?_, ?_⟩
  · exact padNum_length_eq 3 t.ro
      (toString_nat_length_le t.ro 3 (by omega) (by norm_num; omega))
  · exact padNum_length_eq 4 t.bc
      (toString_nat_length_le t.bc 4 (by omega) (by norm_num; omega))

/-- C9 witness: the task (orbit 52, burst cycle 716, IW2, VV) of the
default L2 batch range is fetched via the padded strings "052" and
"0716", which have widths 3 and 4. -/
theorem l2_batch_zero_padding_witness :
    l2Step "L2A" "2019_2023" "tok" (fun _ => HttpResult.transportError "x")
        ⟨52, 716, "IW2", "VV"⟩ =
      fetchAndExtract
        (buildL2Url "L2A" (padNum 3 52) (padNum 4 716) "IW2" "VV" "2019_2023" "tok")
        (buildL2Pfx "L2A" (padNum 3 52) (padNum 4 716) "IW2" "VV" "2019_2023")
        (fun _ => HttpResult.transportError "x") ∧
    (padNum 3 52).length = 3 ∧ (padNum 4 716).length = 4 := by
  exact l2_batch_zero_padding 50 52 715 717 ["IW1", "IW2", "IW3"] ["VV"]
    "L2A" "2019_2023" "tok" (fun _ => HttpResult.transportError "x")
    ⟨52, 716, "IW2", "VV"⟩ (by decide) (by decide) (by decide) (by decide)
    (by omega) (by omega)

/-- C10: a fetched archive whose first matching `.csv` entry has
zero-byte content is returned by fetch/extract as a success pair with
empty data; but the batch loop tests success by the truthiness of the
returned data, so the zero-length payload contributes nothing to
`files_data` — exactly as if the task had failed. -/
theorem empty_payload_success_excluded
    (year id : String) (net : Net) (t : GridTask) (rest : List GridTask)
    (nm : String) :
    (gridStep year id net t = .success [] nm →
      (runGridBatch year id net (t :: rest)).2 =
        (runGridBatch year id net rest).2) ∧
    (∀ (z : ZipArchive) (url pfx : String),
      net url = .response 200 (.ok z) → findCsv z pfx = some ([], nm) →
        fetchAndExtract url pfx net = .success [] nm) := by
  constructor
  · intro h
    simp [runGridBatch, runLoop, h, truthyBytes]
  · intro z url pfx hnet hfind
    simp [fetchAndExtract, hnet, hfind]

/-- C10 witness: a server answering 200 with an archive whose matching
CSV entry is empty yields a success pair with empty bytes, and a
single-task batch against it collects nothing. -/
theorem empty_payload_success_excluded_witness :
    fetchAndExtract
        (buildL3Url "L3" 32 31 "E" "2019_2023" "tok")
        (buildL3Pfx "L3" 32 31 "E" "2019_2023")
        (fun _ => HttpResult.response 200
          (.ok ⟨["EGMS_L3_E32N31_100km_E_2019_2023_1.csv"], fun _ => []⟩)) =
      .success [] "EGMS_L3_E32N31_100km_E_2019_2023_1.csv" ∧
    (runGridBatch "2019_2023" "tok"
        (fun _ => HttpResult.response 200
          (.ok ⟨["EGMS_L3_E32N31_100km_E_2019_2023_1.csv"], fun _ => []⟩))
        [⟨32, 31, "E"⟩]).2 = [] := by
  constructor
  · exact (empty_payload_success_excluded "2019_2023" "tok"
      (fun _ => HttpResult.response 200
        (.ok ⟨["EGMS_L3_E32N31_100km_E_2019_2023_1.csv"], fun _ => []⟩))
      ⟨32, 31, "E"⟩ [] "EGMS_L3_E32N31_100km_E_2019_2023_1.csv").2
      ⟨["EGMS_L3_E32N31_100km_E_2019_2023_1.csv"], fun _ => []⟩
      (buildL3Url "L3" 32 31 "E" "2019_2023" "tok")
      (buildL3Pfx "L3" 32 31 "E" "2019_2023") rfl rfl
  · have h := (empty_payload_success_excluded "2019_2023" "tok"
      (fun _ => HttpResult.response 200
        (.ok ⟨["EGMS_L3_E32N31_100km_E_2019_2023_1.csv"], fun _ => []⟩))
      ⟨32, 31, "E"⟩ [] "EGMS_L3_E32N31_100km_E_2019_2023_1.csv").1 rfl
    rw [h]
    rfl

/-- C8: the sub-level token of the expected filename pattern does NOT
equal the sub-level token of the locator.  The URL is built from the
remapped value (`L2A` → `L2a`, line 73) but `filename_prefix` is built
from the raw `data_type` (line 71), so an archive entry named after
the requested zip (`EGMS_L2a_..._1.csv`, matching the repository's own
L3 convention that the zip basename equals the payload name) never
contains the pattern, and the fetch ends in `noMatchingPayload`. -/
theorem l2_pattern_sublevel_mismatch :
    buildL2Pfx "L2A" "052" "0716" "IW2" "VV" "2019_2023" =
      "EGMS_L2A_052_0716_IW2_VV_2019_2023_1" ∧
    buildL2Url "L2A" "052" "0716" "IW2" "VV" "2019_2023" "tok" =
      "https://egms.land.copernicus.eu/insar-api/archive/download/EGMS_L2a_052_0716_IW2_VV_2019_2023_1.zip?id=tok" ∧
    strContains "EGMS_L2a_052_0716_IW2_VV_2019_2023_1.csv"
      (buildL2Pfx "L2A" "052" "0716" "IW2" "VV" "2019_2023") = false ∧
    (fetch_file_data 0 0 "" "L2A" "2019_2023" "tok" (some "052") (some "0716")
        (some "IW2") (some "VV")
        (fun _ => HttpResult.response 200
          (.ok ⟨["EGMS_L2a_052_0716_IW2_VV_2019_2023_1.csv"], fun _ => [49, 50]⟩))).1
      = .noMatchingPayload := by
  refine ⟨rfl, rfl, by decide, rfl⟩
